import Mathlib

/-!
Verification of the typed error-result pipeline of the fullstack-boilerplate
repository (DomainError taxonomy, Result container, Boundary Translator) and
of its Next.js configuration module.

The Result/DomainError/Translator implementation is described by the
specification but its source file is not present in the repository snapshot,
so those components are modelled from the spec; the Next.js configuration is
embedded directly from apps/web/next.config.ts.
-/

namespace Boilerplate

/-- A minimal JSON-like value type for wire bodies and metadata values. -/
inductive Json where
  | str : String → Json
  | num : Nat → Json
  | bool : Bool → Json
  | obj : List (String × Json) → Json
  | arr : List Json → Json

/-- Association-list field lookup on a JSON object body (first match wins). -/
def lookupField : List (String × Json) → String → Option Json
  | [], _ => none
  | (k, v) :: rest, key => if k = key then some v else lookupField rest key

/-- Modelled from the spec: structured metadata attached to a domain error,
a mapping from string keys to serializable values. -/
def Metadata : Type := List (String × Json)

/-- Modelled from the spec: a DomainError carries a stable string
discriminator `kind`, an HTTP status hint, a human-readable message and
optional structured metadata. -/
structure DomainError where
  kind : String
  httpStatus : Nat
  message : String
  metadata : Option Metadata

/-- Modelled from the spec: the canonical serialization of a DomainError,
producing a body with the kind under `code`, the message, and a `details`
key only when metadata was supplied at construction. -/
def serializeDomainError (e : DomainError) : List (String × Json) :=
  [("code", Json.str e.kind), ("message", Json.str e.message)] ++
    (match e.metadata with
     | some m => [("details", Json.obj m)]
     | none => [])

/-- Modelled from the spec: the concrete DomainError variants of the
taxonomy, each fixing its kind and httpStatus at the type level and taking
the construction parameters relevant to that failure. -/
inductive DomainErrorVariant where
  | validation (message : String) (metadata : Option Metadata)
  | notFound (featureId : String)
  | conflict (message : String) (metadata : Option Metadata)

/-- Modelled from the spec: the fixed kind string of each variant. -/
def DomainErrorVariant.kindOf : DomainErrorVariant → String
  | .validation _ _ => "VALIDATION_ERROR"
  | .notFound _ => "FEATURE_NOT_FOUND"
  | .conflict _ _ => "CONFLICT"

/-- Modelled from the spec: whether metadata was supplied at construction
(the not-found variant always carries its offending identifier as details). -/
def DomainErrorVariant.metadataSupplied : DomainErrorVariant → Bool
  | .validation _ md => md.isSome
  | .notFound _ => true
  | .conflict _ md => md.isSome

/-- Modelled from the spec: constructing the DomainError value of each
variant; kinds and statuses are fixed, parameters fill message/metadata. -/
def DomainErrorVariant.toDomainError : DomainErrorVariant → DomainError
  | .validation msg md => ⟨"VALIDATION_ERROR", 400, msg, md⟩
  | .notFound fid =>
      ⟨"FEATURE_NOT_FOUND", 404,
        "Feature with id \"" ++ fid ++ "\" not found",
        some [("featureId", Json.str fid)]⟩
  | .conflict msg md => ⟨"CONFLICT", 409, msg, md⟩

/-- Modelled from the spec: the two-variant Result container; exactly one
of value/error exists by construction, discriminated by the tag. -/
inductive Result (T E : Type) where
  | ok (value : T)
  | err (error : E)
deriving DecidableEq

/-- Modelled from the spec: the success-tag predicate. -/
def Result.isOk : Result T E → Bool
  | .ok _ => true
  | .err _ => false

/-- Modelled from the spec: the failure-tag predicate. -/
def Result.isErr : Result T E → Bool
  | .ok _ => false
  | .err _ => true

/-- The success payload, when populated. -/
def Result.getValue : Result T E → Option T
  | .ok v => some v
  | .err _ => none

/-- The failure payload, when populated. -/
def Result.getError : Result T E → Option E
  | .ok _ => none
  | .err e => some e

/-- Modelled from the spec: map applies a pure transform to the success
payload and passes failures through unchanged. -/
def Result.map (r : Result T E) (fn : T → U) : Result U E :=
  match r with
  | .ok v => .ok (fn v)
  | .err e => .err e

/-- Modelled from the spec: chain applies a Result-returning transform to
the success payload; on failure it short-circuits and returns the original
failure untouched. -/
def Result.chain (r : Result T E) (fn : T → Result U E) : Result U E :=
  match r with
  | .ok v => fn v
  | .err e => .err e

/-- Exceptions a caller-supplied function may raise, modelled as values. -/
abbrev Exn : Type := String

/-- The execution of map with a caller-supplied function that may throw:
the outer Except layer is the exception channel of the host language.
Mirrors Result.map except that a raise inside fn aborts the whole call. -/
def Result.mapE (r : Result T E) (fn : T → Except Exn U) :
    Except Exn (Result U E) :=
  match r with
  | .ok v =>
      match fn v with
      | .ok u => .ok (.ok u)
      | .error ex => .error ex
  | .err e => .ok (.err e)

/-- The execution of chain with a caller-supplied function that may throw. -/
def Result.chainE (r : Result T E) (fn : T → Except Exn (Result U E)) :
    Except Exn (Result U E) :=
  match r with
  | .ok v =>
      match fn v with
      | .ok s => .ok s
      | .error ex => .error ex
  | .err e => .ok (.err e)

/-- Modelled from the spec: the distinguishable persistence-layer failure
sub-kinds surfaced by the storage collaborator. -/
inductive PersistenceFailure where
  | uniqueViolation (field : Option String)
  | notFound
  | other (info : String)
deriving DecidableEq

/-- Modelled from the spec: everything that can reach the Boundary
Translator: a recognized DomainError, a recognized transport-framework
error already carrying status and body, a recognized persistence-layer
error, or any other (unclassified) failure with its internal message. -/
inductive Failure where
  | domain (e : DomainError)
  | transport (status : Nat) (body : List (String × Json))
  | persistence (p : PersistenceFailure)
  | unclassified (message : String)

/-- Ambient request metadata available to the Boundary Translator. -/
structure RequestMeta where
  path : String
  method : String
  timestamp : String
deriving DecidableEq

/-- The normalized wire response: a status code plus a JSON object body. -/
structure NormalizedResponse where
  status : Nat
  body : List (String × Json)

/-- The timestamp and path fields attached to every translated body. -/
def metaFields (m : RequestMeta) : List (String × Json) :=
  [("timestamp", Json.str m.timestamp), ("path", Json.str m.path)]

/-- Modelled from the spec: the fixed lookup table for persistence-layer
sub-kinds: unique violation to 409 CONFLICT with the offending field when
available, record-not-found to 404 NOT_FOUND, anything else to 500
DATABASE_ERROR. -/
def translatePersistence : PersistenceFailure → Nat × List (String × Json)
  | .uniqueViolation (some f) =>
      (409, [("code", Json.str "CONFLICT"),
             ("message", Json.str "Resource already exists"),
             ("details", Json.obj [("field", Json.str f)])])
  | .uniqueViolation none =>
      (409, [("code", Json.str "CONFLICT"),
             ("message", Json.str "Resource already exists")])
  | .notFound =>
      (404, [("code", Json.str "NOT_FOUND"),
             ("message", Json.str "Resource not found")])
  | .other _ =>
      (500, [("code", Json.str "DATABASE_ERROR"),
             ("message", Json.str "Database error")])

/-- Modelled from the spec: the Boundary Translator classification,
first match wins: DomainError serialization with its own status, then
transport pass-through, then the persistence lookup table, then the
constant INTERNAL_ERROR fallback; timestamp and path attached in every
branch. -/
def translate (f : Failure) (m : RequestMeta) : NormalizedResponse :=
  match f with
  | .domain e => ⟨e.httpStatus, serializeDomainError e ++ metaFields m⟩
  | .transport s b => ⟨s, b ++ metaFields m⟩
  | .persistence p =>
      ⟨(translatePersistence p).1, (translatePersistence p).2 ++ metaFields m⟩
  | .unclassified _ =>
      ⟨500, [("code", Json.str "INTERNAL_ERROR"),
             ("message", Json.str "Internal server error")] ++ metaFields m⟩

/-- Modelled from the spec: the response writes performed by one Translator
invocation; every classification branch performs exactly one write. -/
def translateWrites (f : Failure) (m : RequestMeta) :
    List NormalizedResponse :=
  match f with
  | .domain e => [⟨e.httpStatus, serializeDomainError e ++ metaFields m⟩]
  | .transport s b => [⟨s, b ++ metaFields m⟩]
  | .persistence p =>
      [⟨(translatePersistence p).1,
        (translatePersistence p).2 ++ metaFields m⟩]
  | .unclassified _ =>
      [⟨500, [("code", Json.str "INTERNAL_ERROR"),
              ("message", Json.str "Internal server error")] ++ metaFields m⟩]

/-- A Next.js configuration value, as set by the config module. -/
inductive ConfigValue where
  | bool (b : Bool)
  | strList (l : List String)
deriving DecidableEq

/-- The nextConfig object of apps/web/next.config.ts: the exact set of
configuration keys it sets, in source order. -/
def nextConfig : List (String × ConfigValue) :=
  [("reactStrictMode", ConfigValue.bool true),
   ("transpilePackages", ConfigValue.strList ["@app/shared"])]

/-- Claim C1: the Boundary Translator classifies every failure by a fixed
first-match-wins order: a recognized DomainError yields its own httpStatus
with its serialization as body; a recognized transport-framework error
passes its status and body through unchanged; a recognized persistence-layer
error maps by the fixed lookup table (unique violation to 409 CONFLICT with
the offending field when available, record-not-found to 404 NOT_FOUND, any
other persistence sub-kind to 500 DATABASE_ERROR). -/
theorem translator_classification (e : DomainError) (s : Nat)
    (b : List (String × Json)) (fld info : String) (m : RequestMeta) :
    translate (.domain e) m =
      ⟨e.httpStatus, serializeDomainError e ++ metaFields m⟩ ∧
    translate (.transport s b) m = ⟨s, b ++ metaFields m⟩ ∧
    (translate (.persistence (.uniqueViolation (some fld))) m).status = 409 ∧
    lookupField (translate (.persistence (.uniqueViolation (some fld))) m).body
      "code" = some (Json.str "CONFLICT") ∧
    lookupField (translate (.persistence (.uniqueViolation (some fld))) m).body
      "details" = some (Json.obj [("field", Json.str fld)]) ∧
    (translate (.persistence (.uniqueViolation none)) m).status = 409 ∧
    lookupField (translate (.persistence (.uniqueViolation none)) m).body
      "code" = some (Json.str "CONFLICT") ∧
    (translate (.persistence .notFound) m).status = 404 ∧
    lookupField (translate (.persistence .notFound) m).body
      "code" = some (Json.str "NOT_FOUND") ∧
    (translate (.persistence (.other info)) m).status = 500 ∧
    lookupField (translate (.persistence (.other info)) m).body
      "code" = some (Json.str "DATABASE_ERROR") :=
  ⟨rfl, rfl, rfl, rfl, rfl, rfl, rfl, rfl, rfl, rfl, rfl⟩

/-- Claim C2: for every concrete DomainError variant, reading back the code
field of its serialization yields exactly the variant fixed kind string, and
the serialized form contains a details key if and only if metadata was
supplied at construction (the key is omitted entirely when absent). -/
theorem domainError_serialization_roundtrip (v : DomainErrorVariant) :
    lookupField (serializeDomainError v.toDomainError) "code" =
      some (Json.str v.kindOf) ∧
    (lookupField (serializeDomainError v.toDomainError) "details").isSome =
      v.metadataSupplied := by
  cases v with
  | validation msg md => cases md <;> exact ⟨rfl, rfl⟩
  | notFound fid => exact ⟨rfl, rfl⟩
  | conflict msg md => cases md <;> exact ⟨rfl, rfl⟩

/-- Claim C3: chain on a failure never invokes the supplied function (its
output does not depend on which function is supplied) and returns a Result
equal to the original failure untouched. -/
theorem chain_short_circuits {T U E : Type} (e : E)
    (f g : T → Result U E) :
    Result.chain (.err e) f = (.err e : Result U E) ∧
    Result.chain (.err e) f = Result.chain (.err e) g :=
  ⟨rfl, rfl⟩

/-- Claim C4: map applies the supplied function only to a success payload,
so map (ok v) f = ok (f v), and passes failures through unchanged, so
map (err e) f = err e. -/
theorem map_laws {T U E : Type} (v : T) (e : E) (f : T → U) :
    Result.map (.ok v) f = (.ok (f v) : Result U E) ∧
    Result.map (.err e) f = (.err e : Result U E) :=
  ⟨rfl, rfl⟩

/-- Claim C5: every unclassified failure yields status 500 with the constant
code INTERNAL_ERROR and message Internal server error; the emitted response
is independent of which unclassified failure occurred, so the body never
carries the original internal message text. -/
theorem unclassified_constant_response (msg1 msg2 : String)
    (m : RequestMeta) :
    translate (.unclassified msg1) m = translate (.unclassified msg2) m ∧
    (translate (.unclassified msg1) m).status = 500 ∧
    lookupField (translate (.unclassified msg1) m).body "code" =
      some (Json.str "INTERNAL_ERROR") ∧
    lookupField (translate (.unclassified msg1) m).body "message" =
      some (Json.str "Internal server error") :=
  ⟨rfl, rfl, rfl, rfl⟩

/-- Claim C6: every Translator invocation for a failed request performs
exactly one response write, and in all classification branches the written
body carries the request timestamp and path. -/
theorem translator_single_write (f : Failure) (m : RequestMeta) :
    translateWrites f m = [translate f m] ∧
    ("timestamp", Json.str m.timestamp) ∈ (translate f m).body ∧
    ("path", Json.str m.path) ∈ (translate f m).body := by
  cases f <;>
    simp [translateWrites, translate, metaFields, List.mem_append]

/-- Claim C7: every Result has exactly one of value/error populated,
determined by its ok tag; construction via ok or err fully fixes the tag
and both payload observations, and isErr is the negation of isOk. -/
theorem result_exactly_one {T E : Type} (r : Result T E) (v : T) (e : E) :
    ((r.isOk = true ∧ ∃ w, r = .ok w ∧ r.getValue = some w ∧
        r.getError = none) ∨
     (r.isOk = false ∧ ∃ x, r = .err x ∧ r.getValue = none ∧
        r.getError = some x)) ∧
    (r.isErr = true ↔ r.isOk = false) ∧
    (Result.ok v : Result T E).isOk = true ∧
    (Result.ok v : Result T E).getValue = some v ∧
    (Result.ok v : Result T E).getError = none ∧
    (Result.err e : Result T E).isOk = false ∧
    (Result.err e : Result T E).getValue = none ∧
    (Result.err e : Result T E).getError = some e := by
  cases r <;>
    simp [Result.isOk, Result.isErr, Result.getValue, Result.getError]

/-- Claim C8: the executions of map and chain under the host exception
channel never raise on a failure Result; when the caller-supplied function
raises, that exact exception propagates uncaught out of map/chain; and when
it does not raise, the call completes normally (no exception is swallowed
or converted into a failure Result). -/
theorem result_ops_exception_transparent {T U E : Type} (v : T) (e : E)
    (fn : T → Except Exn U) (gn : T → Except Exn (Result U E)) (ex : Exn) :
    Result.mapE (Result.err e) fn = .ok (.err e) ∧
    Result.chainE (Result.err e) gn = .ok (.err e) ∧
    (fn v = .error ex →
      Result.mapE (Result.ok v : Result T E) fn = .error ex) ∧
    (gn v = .error ex →
      Result.chainE (Result.ok v : Result T E) gn = .error ex) ∧
    (∀ u, fn v = .ok u →
      Result.mapE (Result.ok v : Result T E) fn = .ok (.ok u)) ∧
    (∀ s, gn v = .ok s →
      Result.chainE (Result.ok v : Result T E) gn = .ok s) := by
  refine ⟨rfl, rfl, ?_, ?_, ?_, ?_⟩
  · intro h
    simp [Result.mapE, h]
  · intro h
    simp [Result.chainE, h]
  · intro u h
    simp [Result.mapE, h]
  · intro s h
    simp [Result.chainE, h]

/-- Witness for C8: at a concrete throwing function, the exception value
propagates out of both mapE and chainE exactly as raised. -/
theorem result_ops_exception_transparent_witness :
    Result.mapE (Result.ok 1 : Result Nat String)
      (fun _ => (Except.error "boom" : Except Exn Nat)) =
      Except.error "boom" ∧
    Result.chainE (Result.ok 1 : Result Nat String)
      (fun _ => (Except.error "boom" : Except Exn (Result Nat String))) =
      Except.error "boom" :=
  ⟨(result_ops_exception_transparent 1 "e"
      (fun _ => (Except.error "boom" : Except Exn Nat))
      (fun _ => (Except.error "boom" : Except Exn (Result Nat String)))
      "boom").2.2.1 rfl,
   (result_ops_exception_transparent 1 "e"
      (fun _ => (Except.error "boom" : Except Exn Nat))
      (fun _ => (Except.error "boom" : Except Exn (Result Nat String)))
      "boom").2.2.2.1 rfl⟩

/-- Claim C9: the Boundary Translator is deterministic: two invocations
with the same failure input and the same ambient request metadata produce
the same status code and the same response body. -/
theorem translator_deterministic (f1 f2 : Failure) (m1 m2 : RequestMeta)
    (hf : f1 = f2) (hm : m1 = m2) :
    translate f1 m1 = translate f2 m2 := by
  subst hf
  subst hm
  rfl

/-- Witness for C9: determinism at a concrete failure and request. -/
theorem translator_deterministic_witness :
    translate (.unclassified "x") ⟨"/features", "GET", "t0"⟩ =
      translate (.unclassified "x") ⟨"/features", "GET", "t0"⟩ :=
  translator_deterministic (.unclassified "x") (.unclassified "x")
    ⟨"/features", "GET", "t0"⟩ ⟨"/features", "GET", "t0"⟩ rfl rfl

/-- Claim C10: the Next.js configuration module is a pure constant: it sets
reactStrictMode to true and transpilePackages to the one-element list
with the shared package, and sets no other configuration keys. -/
theorem nextConfig_exact :
    nextConfig = [("reactStrictMode", ConfigValue.bool true),
                  ("transpilePackages",
                    ConfigValue.strList ["@app/shared"])] :=
  rfl


end Boilerplate
